import Mathlib

/-!
Shallow embedding of the agro-ml siembra recommendation engine
(backend/api/app/services), with theorems checking the natural-language
specification against the code.

Numeric values are embedded as rationals; Python dictionaries become
structures with optional fields (a missing key is `none`); fallible code
returns `Except`.  Each definition is translated from the corresponding
Python function, named after it, and kept executable.
-/

namespace AgroML

/-! ## Python value model (app/utils/type_converters.py) -/

/-- A Python scalar as stored in lote/soil/climate dictionaries:
`null` is Python `None` (or an absent key when a dict is read with
`.get`), `num` a numeric value, `str` a string. -/
inductive PyVal where
  | null : PyVal
  | num (q : ℚ) : PyVal
  | str (s : String) : PyVal
deriving DecidableEq, Repr

/-- Python truthiness of a scalar: `None`, `0` and the empty string are
falsy, everything else truthy. -/
def pyTruthy : PyVal → Bool
  | PyVal.null => false
  | PyVal.num q => decide (q ≠ 0)
  | PyVal.str s => decide (s ≠ "")

/-- Python `a or b` on scalars: `b` when `a` is falsy, else `a`. -/
def pyOr (a b : PyVal) : PyVal := if pyTruthy a then a else b

/-- Whitespace characters stripped by Python `str.strip()`. -/
def pythonWhitespace : List Char :=
  [ ' ', '\t', '\n', '\r', Char.ofNat 11, Char.ofNat 12 ]

/-- Character-level test for Python whitespace. -/
def isPySpace (c : Char) : Bool := pythonWhitespace.contains c

/-- Python `str.strip()`: drop leading and trailing whitespace. -/
def pyStrip (s : String) : String :=
  String.mk (((s.toList.dropWhile isPySpace).reverse.dropWhile isPySpace).reverse)

/-- Decimal digit test (the regex class `\d` restricted to ASCII, which
is what the campaign strings contain). -/
def isDigitChar (c : Char) : Bool :=
  48 ≤ c.toNat && c.toNat ≤ 57

/-- Numeric value of a list of decimal digit characters. -/
def digitsToNat (l : List Char) : ℕ :=
  l.foldl (fun acc c => 10 * acc + (c.toNat - Char.toNat '0')) 0

/-- Decimal parser for the common numeric-string forms accepted by Python
`float(str)`: optional sign, integer digits, optional fractional digits
(exponent and infinity forms are not used by this repository and are
elided).  Returns `none` when the text is not numeric, as Python raises
`ValueError` there. -/
def parseFloatCore (l : List Char) : Option ℚ :=
  let ip := l.takeWhile isDigitChar
  let rest := l.dropWhile isDigitChar
  match rest with
  | [] => if ip.isEmpty then none else some ((digitsToNat ip : ℚ))
  | '.' :: fp =>
      if fp.all isDigitChar && !(ip.isEmpty && fp.isEmpty) then
        some ((digitsToNat ip : ℚ) + (digitsToNat fp : ℚ) / ((10 : ℚ) ^ fp.length))
      else none
  | _ => none

/-- Signed decimal parser used by `asFloat` on strings. -/
def parseFloat? (s : String) : Option ℚ :=
  match (pyStrip s).toList with
  | '-' :: t => (parseFloatCore t).map (fun q => -q)
  | '+' :: t => parseFloatCore t
  | t => parseFloatCore t

/-- `as_float` (app/utils/type_converters.py): safe conversion to float;
`None` on `None` input or a failed conversion. -/
def asFloat : PyVal → Option ℚ
  | PyVal.null => none
  | PyVal.num q => some q
  | PyVal.str s => parseFloat? s

/-! ## SiembraPredictor (services/siembra/predictor.py) -/

/-- Python built-in `round`: nearest integer, ties to even. -/
def pyRound (q : ℚ) : ℤ :=
  if q - ((⌊q⌋ : ℤ) : ℚ) = 1 / 2 then (if ⌊q⌋ % 2 = 0 then ⌊q⌋ else ⌊q⌋ + 1)
  else round q

/-- `SiembraPredictor._clamp_day_of_year`: round the raw prediction
(`day = int(round(value))`), then saturate into [1, 365] (logging, not
failing, on saturation). -/
def clampDayOfYear (value : ℚ) : ℤ :=
  if pyRound value < 1 then 1
  else if pyRound value > 365 then 365
  else pyRound value

/-- `SiembraPredictor.predict_day_of_year`: apply the preprocessor, then
the model (whose first output component is the raw prediction), then
clamp. `preprocessor` and `model` are the opaque artifacts. -/
def predictDayOfYear {α β : Type} (preprocessor : α → β) (model : β → ℚ)
    (featuresDf : α) : ℤ :=
  clampDayOfYear (model (preprocessor featuresDf))

/-! ## CampaignParser (services/siembra/campaign_parser.py) -/

/-- The distinct `CampaignNotFoundError` messages raised by
`CampaignParser.parse_target_year`. -/
inductive CampaignError where
  | emptyCampaign : CampaignError
  | badFormat : CampaignError
  | invalidSecondYear : CampaignError
deriving DecidableEq, Repr

/-- `CAMPAIGN_PATTERN.match`: the anchored regex `(\d{4})/(\d{4})`;
returns the two four-digit groups on success. -/
def matchCampaignPattern (s : String) : Option (List Char × List Char) :=
  match s.toList with
  | [a, b, c, d, sl, e, f, g, h] =>
      if sl = '/' && [a, b, c, d, e, f, g, h].all isDigitChar then
        some ([a, b, c, d], [e, f, g, h])
      else none
  | _ => none

/-- `YEAR_PATTERN.match` applied to a four-character group: the anchored
regex `(19|20)\d{2}`. -/
def matchesYearPattern : List Char → Bool
  | [a, b, c, d] =>
      ((a = '1' && b = '9') || (a = '2' && b = '0')) && isDigitChar c && isDigitChar d
  | _ => false

/-- `CampaignParser.parse_target_year`: strip, require the exact campaign
pattern, validate the second year against the plausible century range,
and return the second year.  The `int()` conversion cannot fail after the
regex match. -/
def parseTargetYear (campana : String) : Except CampaignError ℕ :=
  let cleaned := pyStrip campana
  if cleaned = "" then Except.error CampaignError.emptyCampaign
  else
    match matchCampaignPattern cleaned with
    | none => Except.error CampaignError.badFormat
    | some (_, y2) =>
        if !matchesYearPattern y2 then Except.error CampaignError.invalidSecondYear
        else Except.ok (digitsToNat y2)

/-- Condition under which `parse_target_year` logs the non-consecutive
warning: the pattern matched, the year validation passed, and the second
group differs from the string form of the first year plus one. -/
def warnsNonConsecutive (campana : String) : Bool :=
  match matchCampaignPattern (pyStrip campana) with
  | some (y1, y2) =>
      matchesYearPattern y2 && decide (Nat.repr (digitsToNat y1 + 1) ≠ String.mk y2)
  | none => false

/-- The exact-pattern predicate as worded by the specification claim:
the raw input itself matches `\d{4}/\d{4}` (no stripping). -/
def matchesExactCampaignPattern (s : String) : Bool :=
  (matchCampaignPattern s).isSome

/-- Second year denoted by a campaign string, for the specification-side
characterisation of `parse_target_year`. -/
def secondYearOf (s : String) : ℕ :=
  match matchCampaignPattern s with
  | some (_, y2) => digitsToNat y2
  | none => 0

/-! ## ConfidenceEstimator (services/siembra/confidence_service.py)

The `metricas_performance` JSON is embedded as nested structures whose
optional fields stand for possibly missing dictionary keys.  A metrics
dictionary carries at most the keys `r2`, `rmse` and `size`; its Python
truthiness (used by the `if crop_metrics:` guard) is key presence. -/

/-- A per-model or per-cluster metrics dictionary (keys `r2`, `rmse`,
`size`).  An `r2`/`rmse` field that is present stands for a finite
numeric value, matching the `isinstance`/`isfinite` guards. -/
structure MetricsDict where
  r2 : Option ℚ := none
  rmse : Option ℚ := none
  size : Option ℤ := none
deriving DecidableEq, Repr

/-- Python truthiness of a metrics dictionary: non-empty. -/
def MetricsDict.truthy (m : MetricsDict) : Bool :=
  m.r2.isSome || m.rmse.isSome || m.size.isSome

/-- A `min`/`max` bounds dictionary (used by `target_range` and by each
entry of `numeric_ranges`). -/
structure BoundsDict where
  min : Option ℚ := none
  max : Option ℚ := none
deriving DecidableEq, Repr

/-- The `feature_stats` block of the performance metrics. -/
structure FeatureStatsDict where
  target_range : Option BoundsDict := none
  numeric_ranges : List (String × BoundsDict) := []
deriving DecidableEq, Repr

/-- One cluster of the `clustering` block: overall metrics, metrics by
prior crop, and a sample size. -/
structure ClusterData where
  overall : Option MetricsDict := none
  by_crop : List (String × MetricsDict) := []
  size : Option ℤ := none
deriving DecidableEq, Repr

/-- The `clustering` block: centroid coordinates and per-cluster data
keyed by the decimal string of the cluster index. -/
structure ClusteringDict where
  centroids : List (ℚ × ℚ) := []
  clusters : List (String × ClusterData) := []
deriving DecidableEq, Repr

/-- The whole `performance_metrics` JSON given to `ConfidenceEstimator`. -/
structure PerformanceMetrics where
  general : Option MetricsDict := none
  clustering : Option ClusteringDict := none
  feature_stats : Option FeatureStatsDict := none
deriving DecidableEq, Repr

/-- `ConfidenceEstimator._conf_from_metrics`: map (r2, rmse) metrics to a
confidence in [0, 1]; `none` stands for a non-dictionary input (which,
like a dictionary without usable keys, yields the 0.5 default). -/
def confFromMetrics (metrics : Option MetricsDict) (targetRange : ℚ × ℚ) : ℚ :=
  match metrics with
  | none => 1 / 2
  | some m =>
      match m.r2 with
      | some r2 => max 0 (min 1 r2)
      | none =>
          match m.rmse with
          | some rmse =>
              let rng := max (1 / 1000000) (targetRange.2 - targetRange.1)
              max 0 (min 1 (1 - min (rmse / rng) 1))
          | none => 1 / 2

/-- `ConfidenceEstimator._target_range`: the target range from
`feature_stats.target_range`, with defaults 1.0 and 366.0. -/
def targetRangeOf (pm : PerformanceMetrics) : ℚ × ℚ :=
  match pm.feature_stats with
  | none => (1, 366)
  | some fs =>
      match fs.target_range with
      | none => (1, 366)
      | some r => (r.min.getD 1, r.max.getD 366)

/-- `ConfidenceEstimator._score_general`: confidence from the `general`
metrics block via `_conf_from_metrics`. -/
def scoreGeneral (pm : PerformanceMetrics) : ℚ :=
  confFromMetrics pm.general (targetRangeOf pm)

/-- Squared Euclidean distance from a position to a centroid, as computed
inside the `_nearest_centroid` loop. -/
def sqDist (lat lon : ℚ) (c : ℚ × ℚ) : ℚ :=
  (lat - c.1) ^ 2 + (lon - c.2) ^ 2

/-- The `_nearest_centroid` loop from offset `idx`: index and squared
distance of the first strict minimum (a later centroid replaces the
current best only when strictly closer). -/
def nearestFrom (lat lon : ℚ) : List (ℚ × ℚ) → ℕ → Option (ℕ × ℚ)
  | [], _ => none
  | c :: rest, idx =>
      let d := sqDist lat lon c
      match nearestFrom lat lon rest (idx + 1) with
      | none => some (idx, d)
      | some (bj, bd) => if bd < d then some (bj, bd) else some (idx, d)

/-- `ConfidenceEstimator._nearest_centroid`: index of the nearest
centroid; `none` when there are no centroids or either coordinate fails
the `float(...)` conversion (then every loop iteration is skipped).  The
reported square-root distance only feeds the details metadata and is
omitted. -/
def nearestCentroid (lat lon : PyVal) (cents : List (ℚ × ℚ)) : Option ℕ :=
  match asFloat lat, asFloat lon with
  | some la, some lo => (nearestFrom la lo cents 0).map Prod.fst
  | _, _ => none

/-- The crop-then-overall tiers of `_score_clustering` once a cluster is
selected: the crop-specific metrics when the crop is truthy and its
metrics entry is a truthy (non-empty) dictionary, otherwise the overall
metrics block of the cluster (an absent block becoming the empty
dictionary via `or {}`). -/
def clusterTierScore (pm : PerformanceMetrics) (clusterData : ClusterData)
    (cultivo : Option String) : ℚ :=
  let tr := targetRangeOf pm
  let cropScore : Option ℚ :=
    match cultivo with
    | none => none
    | some c =>
        if c = "" then none
        else
          match clusterData.by_crop.lookup c.toLower with
          | none => none
          | some cm =>
              if cm.truthy then some (confFromMetrics (some cm) tr) else none
  match cropScore with
  | some s => s
  | none => confFromMetrics (some (clusterData.overall.getD {})) tr

/-- `ConfidenceEstimator._score_clustering` (score component only; the
details dictionary is logging metadata).  The feature row maps a feature
name to a Python scalar, `PyVal.null` standing for an absent key.  The
final `score if score is not None else general_fallback` of the source
is unreachable in its `None` arm, since the overall tier always yields a
number. -/
def scoreClustering (pm : PerformanceMetrics) (row : String → PyVal)
    (cultivo : Option String) : ℚ :=
  let cl := pm.clustering.getD {}
  match nearestCentroid (row "latitud") (row "longitud") cl.centroids with
  | none => scoreGeneral pm
  | some cid =>
      clusterTierScore pm ((cl.clusters.lookup (Nat.repr cid)).getD {}) cultivo

/-- Deviation of a live value from one `numeric_ranges` entry, exactly as
computed inside the `_score_feature_stats` loop: distance outside the
nearer bound, relative to the range width floored at 1e-9, and floored
at 0. -/
def featureDeviation (bounds : BoundsDict) (v : ℚ) : ℚ :=
  let fmin := bounds.min.getD v
  let fmax := bounds.max.getD v
  let frng := max (1 / 1000000000) (fmax - fmin)
  let dev := if v < fmin then (fmin - v) / frng
             else if v > fmax then (v - fmax) / frng
             else 0
  max 0 dev

/-- `ConfidenceEstimator._score_feature_stats` (score component only):
1.0 when `numeric_ranges` is empty, otherwise the average deviation over
the features with a live numeric value, capped at 1 and turned into a
penalised, clamped score. -/
def scoreFeatureStats (pm : PerformanceMetrics) (row : String → PyVal) : ℚ :=
  let ranges :=
    match pm.feature_stats with
    | none => []
    | some fs => fs.numeric_ranges
  if ranges.isEmpty then 1
  else
    let acc := ranges.foldl
      (fun (acc : ℚ × ℕ) entry =>
        match asFloat (row entry.1) with
        | none => acc
        | some v => (acc.1 + featureDeviation entry.2 v, acc.2 + 1))
      (0, 0)
    let avgDev := if acc.2 > 0 then acc.1 / (acc.2 : ℚ) else 0
    let score := 1 - min 1 avgDev
    max 0 (min 1 score)

/-- Clamp into [0, 1]. -/
def clamp01 (q : ℚ) : ℚ := max 0 (min 1 q)

/-- Specification-side domain score, following the wording of the spec
for the amended claim: the mean of the per-feature contributions
`1 - deviation` over features with a live numeric value, clamped to
[0, 1]; 1.0 when there are no numeric ranges or no feature has a live
value. -/
def specDomainScore (pm : PerformanceMetrics) (row : String → PyVal) : ℚ :=
  let ranges :=
    match pm.feature_stats with
    | none => []
    | some fs => fs.numeric_ranges
  let contribs := ranges.filterMap
    (fun entry => (asFloat (row entry.1)).map (fun v => 1 - featureDeviation entry.2 v))
  if ranges.isEmpty || contribs.isEmpty then 1
  else clamp01 (contribs.sum / (contribs.length : ℚ))

/-! ## ClimateScenarioGenerator (services/climate_scenarios.py) -/

/-- A drawn climate scenario (name, narrative, precipitation multiplier,
temperature offset). -/
structure ClimateScenario where
  nombre : String
  descripcion : String
  precip_factor : ℚ
  temp_adjustment : ℚ
deriving DecidableEq, Repr

/-- The fixed list of precipitation features modified by
`apply_scenario_to_features`. -/
def precipFeatures : List String :=
  [ "precipitacion_marzo", "precipitacion_abril", "precipitacion_mayo" ]

/-- The fixed list of temperature features modified by
`apply_scenario_to_features`. -/
def tempFeatures : List String :=
  [ "temp_media_marzo", "temp_media_abril", "temp_media_mayo" ]

/-- A feature row for the scenario generator: `none` is an absent key
(the `in modified_row` test), `some PyVal.null` a key bound to `None`.
String values in the modified slots would make the Python arithmetic
raise; rows built by `FeatureBuilder` carry numbers there, and the
embedding leaves a string value unchanged. -/
def FeatureRowMap : Type := String → Option PyVal

/-- Multiplication step applied to a present, non-`None` precipitation
value. -/
def scalePrecip (factor : ℚ) : PyVal → PyVal
  | PyVal.num q => PyVal.num (q * factor)
  | v => v

/-- Offset step applied to a present, non-`None` temperature value. -/
def shiftTemp (offset : ℚ) : PyVal → PyVal
  | PyVal.num q => PyVal.num (q + offset)
  | v => v

/-- `ClimateScenarioGenerator.apply_scenario_to_features`: copy the row,
multiply the three listed precipitation features by the precipitation
factor and add the temperature adjustment to the three listed
temperature features, in both cases only when the key is present with a
non-`None` value; every other entry is unchanged. -/
def applyScenarioToFeatures (row : FeatureRowMap) (scenario : ClimateScenario) :
    FeatureRowMap :=
  fun k =>
    match row k with
    | none => none
    | some v =>
        if precipFeatures.contains k && !(v == PyVal.null) then
          some (scalePrecip scenario.precip_factor v)
        else if tempFeatures.contains k && !(v == PyVal.null) then
          some (shiftTemp scenario.temp_adjustment v)
        else some v

/-! ## FeatureBuilder (services/siembra/feature_builder.py) -/

/-- The `suelo` sub-dictionary of the lote data, restricted to the fields
read by `_extract_feature_value`; `PyVal.null` stands for an absent key. -/
structure SueloData where
  materia_organica_pct : PyVal := PyVal.null
  materia_organica : PyVal := PyVal.null
deriving DecidableEq, Repr

/-- The `materia_organica_pct` branch of
`FeatureBuilder._extract_feature_value`: Python
`suelo.get("materia_organica_pct") or suelo.get("materia_organica")`
followed by `as_float`. -/
def extractMateriaOrganica (suelo : SueloData) : Option ℚ :=
  asFloat (pyOr suelo.materia_organica_pct suelo.materia_organica)

/-- The `build` step for the `materia_organica_pct` feature: the
extracted value, else the numeric default, else the configuration
error raised by `_get_default`. -/
def resolveMateriaOrganica (suelo : SueloData) (numericDefault : Option ℚ) :
    Except Unit ℚ :=
  match extractMateriaOrganica suelo with
  | some v => Except.ok v
  | none =>
      match numericDefault with
      | some d => Except.ok d
      | none => Except.error ()

/-! ## SiembraRiskAnalyzer (services/siembra_risk_analyzer.py)

Calendar dates are embedded proleptic-Gregorian, as Python `datetime.date`
is; chronological comparison of valid dates is lexicographic on
(year, month, day), and `timedelta` arithmetic goes through the standard
civil-calendar day ordinal. -/

/-- A calendar date (year, month, day). -/
structure Fecha where
  year : ℕ
  month : ℕ
  day : ℕ
deriving DecidableEq, Repr

/-- Chronological strict order on dates (Python `date.__lt__`). -/
def fechaLt (a b : Fecha) : Bool :=
  a.year < b.year ||
    (a.year = b.year &&
      (a.month < b.month || (a.month = b.month && a.day < b.day)))

/-- Day ordinal of a date (days from civil algorithm, proleptic
Gregorian), the basis of `timedelta` differences. -/
def fechaOrdinal (d : Fecha) : ℤ :=
  let y : ℤ := if d.month ≤ 2 then (d.year : ℤ) - 1 else (d.year : ℤ)
  let era := Int.fdiv y 400
  let yoe := y - era * 400
  let mp := Int.fmod ((d.month : ℤ) + 9) 12
  let doy := Int.fdiv (153 * mp + 2) 5 + (d.day : ℤ) - 1
  let doe := yoe * 365 + Int.fdiv yoe 4 - Int.fdiv yoe 100 + doy
  era * 146097 + doe - 719468

/-- Date of a day ordinal (civil from days, proleptic Gregorian). -/
def fechaOfOrdinal (z0 : ℤ) : Fecha :=
  let z := z0 + 719468
  let era := Int.fdiv z 146097
  let doe := z - era * 146097
  let yoe := Int.fdiv (doe - Int.fdiv doe 1460 + Int.fdiv doe 36524 - Int.fdiv doe 146096) 365
  let y := yoe + era * 400
  let doy := doe - (365 * yoe + Int.fdiv yoe 4 - Int.fdiv yoe 100)
  let mp := Int.fdiv (5 * doy + 2) 153
  let d := doy - Int.fdiv (153 * mp + 2) 5 + 1
  let m := if mp < 10 then mp + 3 else mp - 9
  { year := (if m ≤ 2 then y + 1 else y).toNat, month := m.toNat, day := d.toNat }

/-- Python `date + timedelta(days=n)`. -/
def fechaAddDays (d : Fecha) (n : ℤ) : Fecha :=
  fechaOfOrdinal (fechaOrdinal d + n)

/-- `SiembraRiskAnalyzer._normalise_window`: the given window, or the
target date plus/minus the default half window of 2 days; swapped when
reversed. -/
def normaliseWindow (fechaObjetivo : Fecha) (ventana : Option (Fecha × Fecha)) :
    Fecha × Fecha :=
  let p :=
    match ventana with
    | some p => p
    | none => (fechaAddDays fechaObjetivo (-2), fechaAddDays fechaObjetivo 2)
  if fechaLt p.2 p.1 then (p.2, p.1) else p

/-- Non-strict order on (month, day) pairs (Python tuple comparison). -/
def mdLe (a b : ℕ × ℕ) : Bool :=
  a.1 < b.1 || (a.1 = b.1 && a.2 ≤ b.2)

/-- Strict order on (month, day) pairs. -/
def mdLt (a b : ℕ × ℕ) : Bool :=
  a.1 < b.1 || (a.1 = b.1 && a.2 < b.2)

/-- `SiembraRiskAnalyzer._is_in_window` on the (month, day) projection of
a date, handling a window that wraps across the year end. -/
def isInWindow (md startMd endMd : ℕ × ℕ) (crossesYear : Bool) : Bool :=
  if !crossesYear then mdLe startMd md && mdLe md endMd
  else mdLe startMd md || mdLe md endMd

/-- The six NASA POWER parameters fetched by `_fetch_nasa_window`, under
the names they are mapped to (`T2M_MIN` to tmin, `T2M_MAX` to tmax,
`PRECTOTCORR` to rain, `WS10M_MAX` to wind, `ALLSKY_SFC_SW_DWN` to rad,
`RH2M` to rh). -/
inductive NasaParam where
  | tmin | tmax | rain | wind | rad | rh
deriving DecidableEq, Repr

/-- The parameter block of a NASA POWER response: for each parameter, the
per-day entries.  A date key that `strptime` cannot parse is `none` (the
loop skips it); values are raw scalars filtered through `as_float`. -/
def NasaResponse : Type := NasaParam → List (Option Fecha × PyVal)

/-- Numeric values of one parameter falling in one calendar year and
inside the window, in response order — the contents of the per-year
bucket built by `_fetch_nasa_window`. -/
def windowValues (resp : NasaResponse) (p : NasaParam) (y : ℕ)
    (startMd endMd : ℕ × ℕ) (crossesYear : Bool) : List ℚ :=
  (resp p).filterMap
    (fun e =>
      match e.1 with
      | none => none
      | some d =>
          if d.year = y && isInWindow (d.month, d.day) startMd endMd crossesYear then
            asFloat e.2
          else none)

/-- A calendar year is retained iff all six parameters have at least one
observation inside the window (`all(bucket.get(name) ...)`; a year with
no bucket at all fails the same test). -/
def yearComplete (resp : NasaResponse) (y : ℕ) (startMd endMd : ℕ × ℕ)
    (crossesYear : Bool) : Bool :=
  [NasaParam.tmin, NasaParam.tmax, NasaParam.rain,
   NasaParam.wind, NasaParam.rad, NasaParam.rh].all
    (fun p => !(windowValues resp p y startMd endMd crossesYear).isEmpty)

/-- Python `range(start_year, end_year + 1)`. -/
def yearsRange (startYear endYear : ℕ) : List ℕ :=
  (List.range (endYear + 1 - startYear)).map (fun i => i + startYear)

/-- The retained calendar years, in increasing order. -/
def completeYears (resp : NasaResponse) (startYear endYear : ℕ)
    (startMd endMd : ℕ × ℕ) (crossesYear : Bool) : List ℕ :=
  (yearsRange startYear endYear).filter
    (fun y => yearComplete resp y startMd endMd crossesYear)

/-- `statistics.mean` (callers only apply it to non-empty lists). -/
def listMean (l : List ℚ) : ℚ := l.sum / (l.length : ℚ)

/-- The per-year aggregated climate series returned by
`_fetch_nasa_window`: retained years plus, aligned with them, mean tmin,
mean tmax, summed rain, mean wind, mean radiation and mean humidity. -/
structure ClimateSeriesData where
  years : List ℕ
  tmin : List ℚ
  tmax : List ℚ
  rain : List ℚ
  wind : List ℚ
  rad : List ℚ
  rh : List ℚ
deriving DecidableEq, Repr

/-- `SiembraRiskAnalyzer._fetch_nasa_window` after the HTTP call:
aggregate the response inside the window and raise `ValueError` when no
retained year remains. -/
def fetchNasaWindow (resp : NasaResponse) (startYear endYear : ℕ)
    (windowStart windowEnd : Fecha) : Except String ClimateSeriesData :=
  let startMd := (windowStart.month, windowStart.day)
  let endMd := (windowEnd.month, windowEnd.day)
  let crossesYear := mdLt endMd startMd
  let ys := completeYears resp startYear endYear startMd endMd crossesYear
  if ys.isEmpty then
    Except.error "NASA sin datos suficientes para la ventana solicitada"
  else
    Except.ok
      { years := ys
        tmin := ys.map (fun y => listMean (windowValues resp NasaParam.tmin y startMd endMd crossesYear))
        tmax := ys.map (fun y => listMean (windowValues resp NasaParam.tmax y startMd endMd crossesYear))
        rain := ys.map (fun y => (windowValues resp NasaParam.rain y startMd endMd crossesYear).sum)
        wind := ys.map (fun y => listMean (windowValues resp NasaParam.wind y startMd endMd crossesYear))
        rad := ys.map (fun y => listMean (windowValues resp NasaParam.rad y startMd endMd crossesYear))
        rh := ys.map (fun y => listMean (windowValues resp NasaParam.rh y startMd endMd crossesYear)) }

/-- `SiembraRiskAnalyzer._collect_window_climate_series`: the fetch with
every exception (network failure or the insufficiency `ValueError`)
caught and turned into `None`.  A fetch that raises before returning —
for example on a timeout — is the `Except.error` case of `network`. -/
def collectWindowClimateSeries (network : Except Unit NasaResponse)
    (startYear endYear : ℕ) (windowStart windowEnd : Fecha) :
    Option ClimateSeriesData :=
  match network with
  | Except.error _ => none
  | Except.ok resp => (fetchNasaWindow resp startYear endYear windowStart windowEnd).toOption

/-- `SiembraRiskAnalyzer._project_series_to_year`: linear least-squares
trend over (year, value) projected to the target year (`np.polyfit` of
degree 1 in closed form); a single data year is returned unchanged and
an empty series gives 0. -/
def projectSeriesToYear (years : List ℕ) (values : List ℚ) (targetYear : ℕ) : ℚ :=
  match values with
  | [] => 0
  | [v] => v
  | _ =>
      let xs := years.map (fun y => (y : ℚ))
      let n : ℚ := (xs.length : ℚ)
      let sx := xs.sum
      let sy := values.sum
      let sxx := (xs.map (fun x => x * x)).sum
      let sxy := ((xs.zip values).map (fun p => p.1 * p.2)).sum
      let m := (n * sxy - sx * sy) / (n * sxx - sx * sx)
      let b := (sy - m * sx) / n
      m * (targetYear : ℚ) + b

/-- The six projected climate statistics handed to the risk rules. -/
structure ClimateProjection where
  tmin : ℚ := 0
  tmax : ℚ := 0
  rain : ℚ := 0
  wind : ℚ := 0
  rad : ℚ := 0
  rh : ℚ := 0
deriving DecidableEq, Repr

/-- Projection of every aggregate series to the target year, as built in
`evaluate`.  The classifier reads the keys with default 0.0; the keys
are always present here. -/
def projectionsOf (c : ClimateSeriesData) (targetYear : ℕ) : ClimateProjection :=
  { tmin := projectSeriesToYear c.years c.tmin targetYear
    tmax := projectSeriesToYear c.years c.tmax targetYear
    rain := projectSeriesToYear c.years c.rain targetYear
    wind := projectSeriesToYear c.years c.wind targetYear
    rad := projectSeriesToYear c.years c.rad targetYear
    rh := projectSeriesToYear c.years c.rh targetYear }

/-- The reason strings embedded in the high-risk description, one tag per
formatted trigger line (the Python code renders each tag with the
numeric values interpolated). -/
inductive Motivo where
  | frost | dryness | excessRain | humidityHigh | lowTemp
deriving DecidableEq, Repr

/-- The strings returned by `evaluate` and by the risk entries, kept
symbolic: the fixed no-coordinates and default advisory messages, the
fixed apt message, the composite high-risk description (with its named
reasons and optional window text) and the fixed per-type detail lines. -/
inductive RiskText where
  | noCoordinates : RiskText
  | defaultRisk : RiskText
  | apto : RiskText
  | alta (motivos : List Motivo) (ventana : Option (Fecha × Fecha)) : RiskText
  | detalleHelada : RiskText
  | detalleSequia : RiskText
  | detalleExcesoLluvia : RiskText
  | detalleHumedad : RiskText
deriving DecidableEq, Repr

/-- The principal verdict dictionary: severity and description. -/
structure RiskVerdict where
  severidad : String
  descripcion : RiskText
deriving DecidableEq, Repr

/-- The trigger context returned beside the principal verdict. -/
structure Contexto where
  frost : Bool
  dryness : Bool
  excessRain : Bool
  humidity : Bool
  windowDays : ℕ
  drynessThreshold : ℚ
  excessRainThreshold : ℚ
deriving DecidableEq, Repr

/-- Window length in days derived from the optional window, as in
`_evaluar_riesgo_principal_con_motivos`: the default half window gives
5, an explicit window gives `max(1, (fin - inicio).days + 1)`. -/
def windowDaysOf (ventana : Option (Fecha × Fecha)) : ℕ :=
  match ventana with
  | none => 2 * 2 + 1
  | some (inicio, fin) => (max 1 (fechaOrdinal fin - fechaOrdinal inicio + 1)).toNat

/-- The threshold rules of `_evaluar_riesgo_principal_con_motivos`, after
the window length has been computed: trigger tests, reason list, low
temperature extra note, and the alta/apto verdict. -/
def classifyRisk (v : ClimateProjection) (windowDays : ℕ)
    (ventana : Option (Fecha × Fecha)) : RiskVerdict × Contexto :=
  let drynessThreshold : ℚ := max 6 ((3 / 2 : ℚ) * (windowDays : ℚ))
  let excessRainThreshold : ℚ := max 70 ((12 : ℚ) * (windowDays : ℚ))
  let frost := decide (v.tmin ≤ -2)
  let dryness := decide (v.rain < drynessThreshold) &&
    (decide (v.tmax ≥ 30) || decide (v.rh ≤ 55))
  let excessRain := decide (v.rain > excessRainThreshold)
  let humidityHigh := decide (v.rh ≥ 95)
  let triggers : List Motivo :=
    (if frost then [Motivo.frost] else []) ++
    (if dryness then [Motivo.dryness] else []) ++
    (if excessRain then [Motivo.excessRain] else []) ++
    (if humidityHigh then [Motivo.humidityHigh] else [])
  let extras : List Motivo :=
    if (decide (v.tmax < 15) || decide (v.tmin < 5)) && !triggers.isEmpty then
      [Motivo.lowTemp]
    else []
  let contexto : Contexto :=
    { frost := frost, dryness := dryness, excessRain := excessRain,
      humidity := humidityHigh, windowDays := windowDays,
      drynessThreshold := drynessThreshold,
      excessRainThreshold := excessRainThreshold }
  if !triggers.isEmpty then
    ({ severidad := "alta", descripcion := RiskText.alta (triggers ++ extras) ventana },
     contexto)
  else
    ({ severidad := "apto", descripcion := RiskText.apto }, contexto)

/-- `SiembraRiskAnalyzer._evaluar_riesgo_principal_con_motivos`: read the
projected values, derive the window length, and apply the threshold
rules. -/
def evaluarRiesgoPrincipalConMotivos (v : ClimateProjection)
    (ventana : Option (Fecha × Fecha)) : RiskVerdict × Contexto :=
  classifyRisk v (windowDaysOf ventana) ventana

/-- One entry of the risk list: the principal verdict or a typed detail
entry. -/
inductive RiskEntry where
  | principal (v : RiskVerdict) : RiskEntry
  | detalle (t : RiskText) : RiskEntry
deriving DecidableEq, Repr

/-- `SiembraRiskAnalyzer._evaluar_riesgos`: the principal verdict first,
followed — only for an alta verdict — by one fixed detail entry per
fired trigger. -/
def evaluarRiesgos (v : ClimateProjection) (ventana : Option (Fecha × Fecha)) :
    List RiskEntry :=
  let pc := evaluarRiesgoPrincipalConMotivos v ventana
  let detalles := [RiskEntry.principal pc.1]
  if pc.1.severidad ≠ "alta" then detalles
  else
    detalles ++
      (if pc.2.frost then [RiskEntry.detalle RiskText.detalleHelada] else []) ++
      (if pc.2.dryness then [RiskEntry.detalle RiskText.detalleSequia] else []) ++
      (if pc.2.excessRain then [RiskEntry.detalle RiskText.detalleExcesoLluvia] else []) ++
      (if pc.2.humidity then [RiskEntry.detalle RiskText.detalleHumedad] else [])

/-- `SiembraRiskAnalyzer._format_risk_entry`: the description of an
entry (always present here, so the fallback string is unreachable). -/
def formatRiskEntry : RiskEntry → RiskText
  | RiskEntry.principal v => v.descripcion
  | RiskEntry.detalle t => t

/-- The `ubicacion` sub-dictionary of the lote data. -/
structure UbicacionData where
  latitud : PyVal := PyVal.null
  longitud : PyVal := PyVal.null
deriving DecidableEq, Repr

/-- The lote data as read by `evaluate`. -/
structure LoteData where
  ubicacion : Option UbicacionData := none
deriving DecidableEq, Repr

/-- `SiembraRiskAnalyzer._extract_coordinates`: `_as_float` of both
coordinates of `lote_data.get("ubicacion") or {}`. -/
def extractCoordinates (lote : LoteData) : Option ℚ × Option ℚ :=
  let u := lote.ubicacion.getD {}
  (asFloat u.latitud, asFloat u.longitud)

/-- `SiembraRiskAnalyzer.evaluate`: no-coordinates short-circuit, window
normalisation, climate collection (all failures already collapsed to
`none`, and the surrounding `try` in the source catches anything else),
trend projection, risk rules, and the single formatted first entry.
`startYear`/`endYear` are the instance fields fixed by the constructor. -/
def evaluate (lote : LoteData) (fechaObjetivo : Fecha)
    (ventana : Option (Fecha × Fecha)) (network : Except Unit NasaResponse)
    (startYear endYear : ℕ) : List RiskText :=
  let coords := extractCoordinates lote
  if coords.1.isNone || coords.2.isNone then [RiskText.noCoordinates]
  else
    let w := normaliseWindow fechaObjetivo ventana
    match collectWindowClimateSeries network startYear endYear w.1 w.2 with
    | none => [RiskText.defaultRisk]
    | some climate =>
        let proj := projectionsOf climate fechaObjetivo.year
        match evaluarRiesgos proj (some w) with
        | [] => [RiskText.defaultRisk]
        | e :: _ => [formatRiskEntry e]

/-! ## Formalised claim vocabulary -/

/-- The frost trigger condition of the specification. -/
def frostTrigger (v : ClimateProjection) : Prop := v.tmin ≤ -2

/-- The dryness trigger condition of the specification. -/
def drynessTrigger (v : ClimateProjection) (windowDays : ℕ) : Prop :=
  v.rain < max 6 ((3 / 2 : ℚ) * (windowDays : ℚ)) ∧ (v.tmax ≥ 30 ∨ v.rh ≤ 55)

/-- The excess-rain trigger condition of the specification. -/
def excessRainTrigger (v : ClimateProjection) (windowDays : ℕ) : Prop :=
  v.rain > max 70 ((12 : ℚ) * (windowDays : ℚ))

/-- The high-humidity trigger condition of the specification. -/
def humidityTrigger (v : ClimateProjection) : Prop := v.rh ≥ 95

/-- At least one of the four risk triggers fires. -/
def anyTrigger (v : ClimateProjection) (windowDays : ℕ) : Prop :=
  frostTrigger v ∨ drynessTrigger v windowDays ∨
    excessRainTrigger v windowDays ∨ humidityTrigger v

/-- The reasons named by a risk description (empty for the fixed
messages). -/
def motivosOf : RiskText → List Motivo
  | RiskText.alta ms _ => ms
  | _ => []

/-- The deviations of the features that have a live numeric value, in
`numeric_ranges` order — the list accumulated by the
`_score_feature_stats` loop. -/
def liveDeviations (row : String → PyVal) (ranges : List (String × BoundsDict)) :
    List ℚ :=
  ranges.filterMap
    (fun entry => (asFloat (row entry.1)).map (fun v => featureDeviation entry.2 v))

/-- Concrete performance metrics exercising the cluster fallback: a good
general score and a single cluster that carries no metrics at all. -/
def c4Metrics : PerformanceMetrics :=
  { general := some { r2 := some (9 / 10) },
    clustering := some { centroids := [(0, 0)], clusters := [( "0", {} )] } }

/-- A feature row positioned exactly at the single centroid of
`c4Metrics`. -/
def c4Row : String → PyVal :=
  fun n => if n = "latitud" then PyVal.num 0
           else if n = "longitud" then PyVal.num 0
           else PyVal.null

/-- Concrete performance metrics with a single trained numeric range
[0, 1] for feature `x`. -/
def c5Metrics : PerformanceMetrics :=
  { feature_stats := some { numeric_ranges := [( "x", { min := some 0, max := some 1 } )] } }

/-- A feature row whose `x` value lies far outside the trained range of
`c5Metrics`. -/
def c5Row : String → PyVal :=
  fun n => if n = "x" then PyVal.num 3 else PyVal.null

/-- The projected values of the specification example for C3. -/
def c3Valores : ClimateProjection := { tmin := 10, tmax := 20, rain := 80, rh := 60 }

/-- A five-day evaluation window (2025-10-10 to 2025-10-14). -/
def c3Ventana : Fecha × Fecha :=
  ({ year := 2025, month := 10, day := 10 }, { year := 2025, month := 10, day := 14 })


/-! ## Theorems -/

/-- Helper: the Python rounding always lands within half a unit of its
argument (nearest-integer property, ties included). -/
theorem abs_pyRound_sub_le (q : ℚ) : |((pyRound q : ℤ) : ℚ) - q| ≤ 1 / 2 := by
  unfold pyRound
  by_cases h : q - ((⌊q⌋ : ℤ) : ℚ) = 1 / 2
  · rw [if_pos h]
    by_cases he : ⌊q⌋ % 2 = 0
    · rw [if_pos he]
      have h2 : ((⌊q⌋ : ℤ) : ℚ) - q = -(1 / 2) := by linarith
      rw [h2, abs_neg, abs_of_nonneg (by norm_num : (0 : ℚ) ≤ 1 / 2)]
    · rw [if_neg he]
      have h2 : (((⌊q⌋ + 1 : ℤ)) : ℚ) - q = 1 / 2 := by push_cast; linarith
      rw [h2, abs_of_nonneg (by norm_num : (0 : ℚ) ≤ 1 / 2)]
  · rw [if_neg h, abs_sub_comm]
    exact abs_sub_round q

/-- Claim C8: for every feature row on which the preprocessor and model
run, `predict_day_of_year` returns an integer in [1, 365]: the raw model
output is rounded to the nearest integer (within half a unit), values
below 1 are clamped to 1, values above 365 are clamped to 365, and
in-range values are returned unchanged. -/
theorem predict_day_of_year_clamped {α β : Type} (preprocessor : α → β)
    (model : β → ℚ) (row : α) :
    1 ≤ predictDayOfYear preprocessor model row ∧
    predictDayOfYear preprocessor model row ≤ 365 ∧
    (pyRound (model (preprocessor row)) < 1 →
      predictDayOfYear preprocessor model row = 1) ∧
    (365 < pyRound (model (preprocessor row)) →
      predictDayOfYear preprocessor model row = 365) ∧
    (1 ≤ pyRound (model (preprocessor row)) →
      pyRound (model (preprocessor row)) ≤ 365 →
      predictDayOfYear preprocessor model row = pyRound (model (preprocessor row))) ∧
    |((pyRound (model (preprocessor row)) : ℤ) : ℚ) - model (preprocessor row)| ≤ 1 / 2 := by
  have habs := abs_pyRound_sub_le (model (preprocessor row))
  unfold predictDayOfYear clampDayOfYear
  refine ⟨?_, ?_, ?_, ?_, ?_, habs⟩ <;> split_ifs <;> omega

/-- Witness for C8: a model that predicts 400 is clamped to 365. -/
theorem predict_day_of_year_clamped_witness :
    predictDayOfYear (fun x : Unit => x) (fun _ : Unit => (400 : ℚ)) () = 365 :=
  (predict_day_of_year_clamped (fun x : Unit => x) (fun _ : Unit => (400 : ℚ)) ()).2.2.2.1
    (by norm_num [pyRound])

/-- Claim C1 counterexample: on a metrics input whose `general` block has
none of `r2`, `rmse` (and no `mae`, which the code never reads), the
general-score computation does not fail with a domain error: it is a
total function that silently returns the default value 0.5. -/
theorem score_general_counterexample :
    scoreGeneral { general := some {} } = 1 / 2 := by rfl

/-- Claim C1 (amended): when no usable metric exists in the `general`
block (no `r2` and no `rmse`; `mae` is never consulted), the general
score is the silent neutral default 0.5 — the computation never raises. -/
theorem score_general_returns_default (pm : PerformanceMetrics)
    (h : pm.general = none ∨
      ∃ g, pm.general = some g ∧ g.r2 = none ∧ g.rmse = none) :
    scoreGeneral pm = 1 / 2 := by
  rcases h with h | ⟨g, hg, h2, hr⟩
  · simp [scoreGeneral, confFromMetrics, h]
  · simp [scoreGeneral, confFromMetrics, hg, h2, hr]

/-- Witness for the amended C1: a wholly empty metrics input scores 0.5. -/
theorem score_general_returns_default_witness :
    scoreGeneral {} = 1 / 2 :=
  score_general_returns_default {} (Or.inl rfl)

/-- Claim C3 counterexample: at tmin = 10, tmax = 20, rain = 80, rh = 60
with a five-day window, the classifier does not report "apto": the
excess-rain trigger fires because 80 exceeds max(70, 12 times 5) = 70. -/
theorem classify_risk_sample_counterexample :
    windowDaysOf (some c3Ventana) = 5 ∧
    ¬ ((evaluarRiesgoPrincipalConMotivos c3Valores (some c3Ventana)).1.severidad = "apto") := by
  have hw : windowDaysOf (some c3Ventana) = 5 := by
    norm_num [windowDaysOf, c3Ventana, fechaOrdinal]
    rfl
  refine ⟨hw, ?_⟩
  unfold evaluarRiesgoPrincipalConMotivos
  rw [hw]
  norm_num [classifyRisk, c3Valores, max_def]
  decide

/-- Claim C3 (amended): for tmin = 10, tmax = 20, rain = 80, rh = 60 with
window_days = 5, the classifier reports severity "alta" with exactly the
excess-rain trigger named. -/
theorem classify_risk_sample_alta :
    (evaluarRiesgoPrincipalConMotivos c3Valores (some c3Ventana)).1 =
      { severidad := "alta",
        descripcion := RiskText.alta [Motivo.excessRain] (some c3Ventana) } := by
  have hw : windowDaysOf (some c3Ventana) = 5 := by
    norm_num [windowDaysOf, c3Ventana, fechaOrdinal]
    rfl
  unfold evaluarRiesgoPrincipalConMotivos
  rw [hw]
  norm_num [classifyRisk, c3Valores, max_def]

/-- Claim C5 counterexample: with the single trained range [0, 1] for
feature `x` and live value 3, the domain score is 0 (the average
deviation is capped at 1 and the score clamped), while the claimed
uncapped mean of contributions is 1 - 2/1 = -1. -/
theorem score_feature_stats_counterexample :
    scoreFeatureStats c5Metrics c5Row = 0 ∧
    (1 - ((3 : ℚ) - 1) / (1 - 0) = -1) ∧ ((0 : ℚ) ≠ -1) := by
  refine ⟨?_, by norm_num, by norm_num⟩
  norm_num [scoreFeatureStats, c5Metrics, c5Row, featureDeviation, asFloat, max_def]

/-- Claim C4 counterexample: when the nearest cluster exists but carries
neither crop-specific nor overall metrics, the cluster score is the
0.5 default of `_conf_from_metrics` on the empty dictionary, not the
general score (0.9 here) that the claim requires as fallback. -/
theorem score_clustering_counterexample :
    scoreClustering c4Metrics c4Row none = 1 / 2 ∧
    scoreGeneral c4Metrics = 9 / 10 ∧ ((1 / 2 : ℚ) ≠ 9 / 10) := by
  refine ⟨?_, ?_, by norm_num⟩
  · norm_num [scoreClustering, c4Metrics, c4Row, nearestCentroid, nearestFrom, asFloat,
      clusterTierScore, confFromMetrics, targetRangeOf, scoreGeneral]
    rfl
  · norm_num [scoreGeneral, c4Metrics, confFromMetrics, targetRangeOf, max_def]

/-- Claim C10: a falsy `materia_organica_pct` (0, `None`, ...) is
silently discarded by `_extract_feature_value` — the legacy
`materia_organica` field decides instead (falling back to the numeric
default when that one is also absent), so the extracted value never
depends on a zero `materia_organica_pct`; only a truthy
`materia_organica_pct` takes precedence over the legacy field. -/
theorem materia_organica_falsy_discarded :
    (∀ suelo : SueloData, pyTruthy suelo.materia_organica_pct = false →
      extractMateriaOrganica suelo = asFloat suelo.materia_organica) ∧
    (∀ suelo : SueloData, pyTruthy suelo.materia_organica_pct = true →
      extractMateriaOrganica suelo = asFloat suelo.materia_organica_pct) ∧
    (∀ suelo : SueloData, suelo.materia_organica_pct = PyVal.num 0 →
      extractMateriaOrganica suelo =
        extractMateriaOrganica { suelo with materia_organica_pct := PyVal.null }) ∧
    (∀ d : ℚ, resolveMateriaOrganica { materia_organica_pct := PyVal.num 0 } (some d) =
      Except.ok d) := by
  refine ⟨?_, ?_, ?_, ?_⟩
  · intro suelo h
    simp [extractMateriaOrganica, pyOr, h]
  · intro suelo h
    simp [extractMateriaOrganica, pyOr, h]
  · intro suelo h
    simp [extractMateriaOrganica, pyOr, h, pyTruthy]
  · intro d
    rfl

/-- Witness for C10: soil data with `materia_organica_pct = 0` and legacy
`materia_organica = 3` resolves to 3. -/
theorem materia_organica_falsy_discarded_witness :
    extractMateriaOrganica
      { materia_organica_pct := PyVal.num 0, materia_organica := PyVal.num 3 } = some 3 := by
  have h := materia_organica_falsy_discarded.1
    { materia_organica_pct := PyVal.num 0, materia_organica := PyVal.num 3 }
    (by norm_num [pyTruthy])
  simpa [asFloat] using h

/-- Claim C6 counterexample: the feature `precipitacion_junio` contains
"precipitacion_", yet applying a scenario with precipitation factor 1/2
leaves its value 10 unchanged — only the fixed March/April/May lists are
modified, not every feature whose name contains the prefix strings. -/
theorem apply_scenario_counterexample :
    ("precipitacion_junio" = "precipitacion_" ++ "junio") ∧
    applyScenarioToFeatures
      (fun k => if k = "precipitacion_junio" then some (PyVal.num 10) else none)
      { nombre := "Sequia severa", descripcion := "drought",
        precip_factor := 1 / 2, temp_adjustment := 4 }
      "precipitacion_junio" = some (PyVal.num 10) ∧
    (PyVal.num 10 ≠ PyVal.num (10 * (1 / 2 : ℚ))) := by
  refine ⟨rfl, rfl, ?_⟩
  simp only [ne_eq, PyVal.num.injEq]
  norm_num

/-- Claim C6 (amended): applying a scenario multiplies exactly the three
fixed precipitation features (precipitacion_marzo/abril/mayo) by the
precipitation factor and offsets exactly the three fixed temperature
features (temp_media_marzo/abril/mayo), when present with a non-None
value; every other entry of the row — including any other
precipitation/temperature month — is unchanged. -/
theorem apply_scenario_fixed_lists (row : FeatureRowMap) (sc : ClimateScenario) (k : String) :
    (∀ q : ℚ, k ∈ precipFeatures → row k = some (PyVal.num q) →
      applyScenarioToFeatures row sc k = some (PyVal.num (q * sc.precip_factor))) ∧
    (∀ q : ℚ, k ∈ tempFeatures → row k = some (PyVal.num q) →
      applyScenarioToFeatures row sc k = some (PyVal.num (q + sc.temp_adjustment))) ∧
    (k ∉ precipFeatures → k ∉ tempFeatures →
      applyScenarioToFeatures row sc k = row k) ∧
    (row k = some PyVal.null → applyScenarioToFeatures row sc k = some PyVal.null) ∧
    (row k = none → applyScenarioToFeatures row sc k = none) := by
  refine ⟨?_, ?_, ?_, ?_, ?_⟩
  · intro q hk hv
    simp [applyScenarioToFeatures, hv, hk, scalePrecip]
  · intro q hk hv
    have hp : k ∉ precipFeatures := by
      simp only [tempFeatures, List.mem_cons, List.not_mem_nil, or_false] at hk
      rcases hk with h | h | h <;> subst h <;> decide
    simp [applyScenarioToFeatures, hv, hk, hp, shiftTemp]
  · intro hp ht
    cases hrow : row k with
    | none => simp [applyScenarioToFeatures, hrow]
    | some v => simp [applyScenarioToFeatures, hrow, hp, ht]
  · intro hv
    simp [applyScenarioToFeatures, hv]
  · intro hv
    simp [applyScenarioToFeatures, hv]

/-- Witness for the amended C6: `precipitacion_marzo` holding 10 is
scaled by factor 2. -/
theorem apply_scenario_fixed_lists_witness :
    applyScenarioToFeatures (fun _ => some (PyVal.num 10))
      { nombre := "w", descripcion := "w", precip_factor := 2, temp_adjustment := 3 }
      "precipitacion_marzo" = some (PyVal.num (10 * 2)) :=
  (apply_scenario_fixed_lists (fun _ => some (PyVal.num 10))
    { nombre := "w", descripcion := "w", precip_factor := 2, temp_adjustment := 3 }
    "precipitacion_marzo").1 10 (by decide) rfl

set_option maxHeartbeats 2000000

/-- Claim C2: for every map of projected climate values and every window
length, the classifier reports severity "alta" iff at least one trigger
fires (frost: tmin at most -2; dryness: rain below max(6, 1.5 w) with
tmax at least 30 or rh at most 55; excess rain: rain above max(70, 12 w);
high humidity: rh at least 95), the high-risk description names exactly
the fired triggers plus the low-temperature note when tmax < 15 or
tmin < 5, and otherwise the severity is "apto". -/
theorem classify_risk_alta_iff_trigger (v : ClimateProjection) (windowDays : ℕ)
    (ventana : Option (Fecha × Fecha)) :
    ((classifyRisk v windowDays ventana).1.severidad = "alta" ↔ anyTrigger v windowDays) ∧
    ((classifyRisk v windowDays ventana).1.severidad = "apto" ↔ ¬ anyTrigger v windowDays) ∧
    (¬ anyTrigger v windowDays →
      (classifyRisk v windowDays ventana).1.descripcion = RiskText.apto) ∧
    (anyTrigger v windowDays →
      (classifyRisk v windowDays ventana).1.descripcion =
        RiskText.alta (motivosOf (classifyRisk v windowDays ventana).1.descripcion) ventana) ∧
    (Motivo.frost ∈ motivosOf (classifyRisk v windowDays ventana).1.descripcion ↔
      frostTrigger v) ∧
    (Motivo.dryness ∈ motivosOf (classifyRisk v windowDays ventana).1.descripcion ↔
      drynessTrigger v windowDays) ∧
    (Motivo.excessRain ∈ motivosOf (classifyRisk v windowDays ventana).1.descripcion ↔
      excessRainTrigger v windowDays) ∧
    (Motivo.humidityHigh ∈ motivosOf (classifyRisk v windowDays ventana).1.descripcion ↔
      humidityTrigger v) ∧
    (Motivo.lowTemp ∈ motivosOf (classifyRisk v windowDays ventana).1.descripcion ↔
      ((v.tmax < 15 ∨ v.tmin < 5) ∧ anyTrigger v windowDays)) := by
  unfold classifyRisk anyTrigger frostTrigger drynessTrigger excessRainTrigger
    humidityTrigger
  simp only [← Bool.decide_or, ← Bool.decide_and]
  by_cases hA : v.tmin ≤ -2 <;>
    by_cases hBO : (v.rain < max 6 ((3 / 2 : ℚ) * (windowDays : ℚ)) ∧ (v.tmax ≥ 30 ∨ v.rh ≤ 55)) <;>
    by_cases hE : v.rain > max 70 ((12 : ℚ) * (windowDays : ℚ)) <;>
    by_cases hF : v.rh ≥ 95 <;>
    by_cases hG : (v.tmax < 15 ∨ v.tmin < 5) <;>
    simp_all [motivosOf]

/-- Witness for C2: a projection with tmin = -3 (frost) is classified
"alta". -/
theorem classify_risk_alta_iff_trigger_witness :
    (classifyRisk { tmin := -3, tmax := 20, rain := 50, rh := 60 } 5 none).1.severidad = "alta" :=
  (classify_risk_alta_iff_trigger { tmin := -3, tmax := 20, rain := 50, rh := 60 } 5 none).1.mpr
    (Or.inl (by norm_num [frostTrigger]))

/-- Helper: the `_nearest_centroid` loop yields no index exactly when the
centroid list is empty. -/
theorem nearestFrom_none_iff (lat lon : ℚ) (l : List (ℚ × ℚ)) (k : ℕ) :
    nearestFrom lat lon l k = none ↔ l = [] := by
  cases l with
  | nil => simp [nearestFrom]
  | cons c rest =>
      simp only [nearestFrom]
      cases h : nearestFrom lat lon rest (k + 1) with
      | none => simp
      | some p =>
          obtain ⟨bj, bd⟩ := p
          by_cases hbd : bd < sqDist lat lon c <;> simp [hbd]

/-- Helper: when the `_nearest_centroid` loop from offset `k` yields
(j, d), then `j` is at least `k`, `d` is the squared distance of the
centroid stored at position `j - k`, and `d` is minimal among all
centroids of the list. -/
theorem nearestFrom_spec (lat lon : ℚ) (l : List (ℚ × ℚ)) :
    ∀ (k j : ℕ) (d : ℚ), nearestFrom lat lon l k = some (j, d) →
      k ≤ j ∧ ∃ c, l.get? (j - k) = some c ∧ d = sqDist lat lon c ∧
        ∀ c2 ∈ l, d ≤ sqDist lat lon c2 := by
  induction l with
  | nil =>
      intro k j d h
      simp [nearestFrom] at h
  | cons c rest ih =>
      intro k j d h
      simp only [nearestFrom] at h
      cases hrec : nearestFrom lat lon rest (k + 1) with
      | none =>
          rw [hrec] at h
          have h2 : some (k, sqDist lat lon c) = some (j, d) := h
          simp only [Option.some.injEq, Prod.mk.injEq] at h2
          obtain ⟨h1, hdd⟩ := h2
          have hrest : rest = [] := (nearestFrom_none_iff lat lon rest (k + 1)).mp hrec
          subst hrest
          subst h1
          subst hdd
          refine ⟨le_refl _, c, by simp, rfl, ?_⟩
          intro c2 hc2
          rcases List.mem_cons.mp hc2 with rfl | hmem
          · exact le_refl _
          · simp at hmem
      | some p =>
          obtain ⟨bj, bd⟩ := p
          rw [hrec] at h
          obtain ⟨hk, c2, hget, hd, hmin⟩ := ih (k + 1) bj bd hrec
          by_cases hlt : bd < sqDist lat lon c
          · have h2 : some (bj, bd) = some (j, d) := by
              rw [← h]
              exact (if_pos hlt).symm
            simp only [Option.some.injEq, Prod.mk.injEq] at h2
            obtain ⟨h1, hdd⟩ := h2
            rw [← h1, ← hdd]
            refine ⟨by omega, c2, ?_, hd, ?_⟩
            · have hidx : bj - k = (bj - (k + 1)) + 1 := by omega
              rw [hidx]
              simpa using hget
            · intro c3 hc3
              rcases List.mem_cons.mp hc3 with rfl | hmem
              · exact le_of_lt hlt
              · exact hmin c3 hmem
          · have h2 : some (k, sqDist lat lon c) = some (j, d) := by
              rw [← h]
              exact (if_neg hlt).symm
            simp only [Option.some.injEq, Prod.mk.injEq] at h2
            obtain ⟨h1, hdd⟩ := h2
            subst h1
            subst hdd
            refine ⟨le_refl _, c, by simp, rfl, ?_⟩
            intro c3 hc3
            rcases List.mem_cons.mp hc3 with rfl | hmem
            · exact le_refl _
            · exact le_trans (not_lt.mp hlt) (hmin c3 hmem)

/-- Claim C4 (amended): with numeric coordinates in the row, the cluster
score falls back to the general score exactly when there are no
centroids; otherwise a nearest centroid (minimal squared — hence
Euclidean — distance in raw coordinate space) is selected and the score
comes from that cluster through the crop-then-overall tiers, where a
cluster without metrics yields the 0.5 default rather than the general
score. -/
theorem score_clustering_nearest (pm : PerformanceMetrics) (row : String → PyVal)
    (cultivo : Option String) (lat lon : ℚ)
    (hlat : asFloat (row "latitud") = some lat)
    (hlon : asFloat (row "longitud") = some lon) :
    ((pm.clustering.getD {}).centroids = [] →
      scoreClustering pm row cultivo = scoreGeneral pm) ∧
    ((pm.clustering.getD {}).centroids ≠ [] →
      ∃ cid, nearestCentroid (row "latitud") (row "longitud")
        (pm.clustering.getD {}).centroids = some cid) ∧
    (∀ cid, nearestCentroid (row "latitud") (row "longitud")
        (pm.clustering.getD {}).centroids = some cid →
      (∃ c, ((pm.clustering.getD {}).centroids).get? cid = some c ∧
        ∀ c2 ∈ (pm.clustering.getD {}).centroids, sqDist lat lon c ≤ sqDist lat lon c2) ∧
      scoreClustering pm row cultivo =
        clusterTierScore pm
          ((((pm.clustering.getD {}).clusters).lookup (Nat.repr cid)).getD {}) cultivo) := by
  have hnc : nearestCentroid (row "latitud") (row "longitud")
      (pm.clustering.getD {}).centroids =
      (nearestFrom lat lon (pm.clustering.getD {}).centroids 0).map Prod.fst := by
    unfold nearestCentroid
    rw [hlat, hlon]
  have hsc : scoreClustering pm row cultivo =
      match nearestCentroid (row "latitud") (row "longitud")
          (pm.clustering.getD {}).centroids with
      | none => scoreGeneral pm
      | some cid =>
          clusterTierScore pm
            ((((pm.clustering.getD {}).clusters).lookup (Nat.repr cid)).getD {}) cultivo :=
    rfl
  refine ⟨?_, ?_, ?_⟩
  · intro hnil
    rw [hsc, hnc, hnil]
    simp [nearestFrom]
  · intro hne
    rw [hnc]
    cases hnf : nearestFrom lat lon (pm.clustering.getD {}).centroids 0 with
    | none => exact absurd ((nearestFrom_none_iff lat lon _ 0).mp hnf) hne
    | some p => exact ⟨p.1, rfl⟩
  · intro cid hcid
    rw [hnc] at hcid
    cases hnf : nearestFrom lat lon (pm.clustering.getD {}).centroids 0 with
    | none =>
        rw [hnf] at hcid
        exact Option.noConfusion hcid
    | some p =>
        obtain ⟨bj, bd⟩ := p
        rw [hnf] at hcid
        obtain rfl : bj = cid := by simpa using hcid
        obtain ⟨hk, c2, hget, hd, hmin⟩ :=
          nearestFrom_spec lat lon (pm.clustering.getD {}).centroids 0 bj bd hnf
        constructor
        · refine ⟨c2, by simpa using hget, ?_⟩
          intro c3 h3
          exact hd ▸ hmin c3 h3
        · rw [hsc, hnc, hnf]
          rfl



/-- Witness for the amended C4: at the single centroid of `c4Metrics`
the score is the tier score of cluster 0. -/
theorem score_clustering_nearest_witness :
    scoreClustering c4Metrics c4Row none =
      clusterTierScore c4Metrics
        (((c4Metrics.clustering.getD {}).clusters.lookup (Nat.repr 0)).getD {}) none :=
  ((score_clustering_nearest c4Metrics c4Row none 0 0 rfl rfl).2.2 0 rfl).2

/-- Helper: the accumulator of the `_score_feature_stats` loop is the sum
and count of the live deviations. -/
theorem foldl_dev (row : String → PyVal) (ranges : List (String × BoundsDict)) :
    ∀ (a : ℚ) (c : ℕ),
      ranges.foldl
        (fun (acc : ℚ × ℕ) entry =>
          match asFloat (row entry.1) with
          | none => acc
          | some v => (acc.1 + featureDeviation entry.2 v, acc.2 + 1))
        (a, c) =
      (a + (liveDeviations row ranges).sum, c + (liveDeviations row ranges).length) := by
  induction ranges with
  | nil =>
      intro a c
      simp [liveDeviations]
  | cons e rest ih =>
      intro a c
      simp only [List.foldl_cons]
      cases haf : asFloat (row e.1) with
      | none =>
          simp only [haf]
          simpa [liveDeviations, List.filterMap_cons, haf] using ih a c
      | some v =>
          simp only [haf]
          rw [ih (a + featureDeviation e.2 v) (c + 1)]
          simp only [liveDeviations, List.filterMap_cons, haf, Option.map_some,
            Option.map_some', List.sum_cons, List.length_cons, Prod.mk.injEq]
          constructor
          · ring
          · omega



/-- Helper: the specification-side contributions are exactly one minus
each live deviation. -/
theorem contribs_eq (row : String → PyVal) (ranges : List (String × BoundsDict)) :
    List.filterMap
      (fun entry => Option.map (fun v => 1 - featureDeviation entry.2 v) (asFloat (row entry.1)))
      ranges =
    (liveDeviations row ranges).map (fun d => 1 - d) := by
  unfold liveDeviations
  rw [List.map_filterMap]
  congr 1
  funext x
  rw [Option.map_map]
  rfl

/-- Helper: summing the contributions `1 - d` over a list. -/
theorem sum_map_one_sub (l : List ℚ) :
    (l.map (fun d => 1 - d)).sum = (l.length : ℚ) - l.sum := by
  induction l with
  | nil => simp
  | cons x xs ih =>
      simp only [List.map_cons, List.sum_cons, List.length_cons, ih]
      push_cast
      ring

/-- Helper: capping the average deviation at 1 before the penalty agrees
with clamping the resulting score into [0, 1]. -/
theorem clamp_capped_mean (a : ℚ) :
    max 0 (min 1 (1 - min 1 a)) = clamp01 (1 - a) := by
  unfold clamp01
  rcases le_total a 1 with h | h
  · rw [min_eq_right h]
  · rw [min_eq_left h]
    simp only [min_def, max_def]
    split_ifs <;> linarith

/-- Claim C5 (amended): the domain score equals the mean of the
per-feature contributions `1 - deviation` over the numeric features with
a live numeric value, clamped into [0, 1]; it is 1.0 when there are no
numeric ranges or no live values, and categorical features play no role
(the code has no categorical branch). -/
theorem score_feature_stats_eq_clamped_mean (pm : PerformanceMetrics)
    (row : String → PyVal) :
    scoreFeatureStats pm row = specDomainScore pm row := by
  rcases pm with ⟨g, cl, fs⟩
  rcases fs with _ | ⟨tr, ranges⟩
  · rfl
  · simp only [scoreFeatureStats, specDomainScore]
    rw [foldl_dev row ranges 0 0, contribs_eq row ranges]
    by_cases hempty : ranges.isEmpty
    · simp [hempty]
    · simp only [Bool.false_eq_true, if_neg hempty, zero_add]
      by_cases hL : liveDeviations row ranges = []
      · simp [hL, hempty]
      · have hlenn : 0 < (liveDeviations row ranges).length := List.length_pos.mpr hL
        have hlen : 0 < ((liveDeviations row ranges).length : ℚ) := by exact_mod_cast hlenn
        rw [if_pos hlenn]
        rw [sum_map_one_sub, List.length_map]
        have hmapne : ((liveDeviations row ranges).map (fun d => 1 - d)).isEmpty = false := by
          simp [List.isEmpty_iff, hL]
        simp only [hmapne, Bool.or_false, if_neg hempty]
        have hdiv : (((liveDeviations row ranges).length : ℚ) -
            (liveDeviations row ranges).sum) / ((liveDeviations row ranges).length : ℚ) =
            1 - (liveDeviations row ranges).sum / ((liveDeviations row ranges).length : ℚ) := by
          field_simp
        rw [hdiv]
        exact clamp_capped_mean _

/-- Claim C7: for every plot with numeric coordinates, whenever the
climate fetch raises (network failure or timeout: the error case of
`network`) or succeeds but yields no calendar year with complete
six-parameter coverage inside the window, `evaluate` returns exactly the
single fixed default advisory message.  `evaluate` is a total function
here, so no exception can propagate to the caller. -/
theorem evaluate_degrades_to_default (lote : LoteData) (fecha : Fecha)
    (ventana : Option (Fecha × Fecha)) (network : Except Unit NasaResponse)
    (startYear endYear : ℕ)
    (hlat : (extractCoordinates lote).1.isSome = true)
    (hlon : (extractCoordinates lote).2.isSome = true)
    (hfail : network = Except.error () ∨
      ∃ resp, network = Except.ok resp ∧
        completeYears resp startYear endYear
          ((normaliseWindow fecha ventana).1.month, (normaliseWindow fecha ventana).1.day)
          ((normaliseWindow fecha ventana).2.month, (normaliseWindow fecha ventana).2.day)
          (mdLt ((normaliseWindow fecha ventana).2.month, (normaliseWindow fecha ventana).2.day)
            ((normaliseWindow fecha ventana).1.month, (normaliseWindow fecha ventana).1.day)) = []) :
    evaluate lote fecha ventana network startYear endYear = [RiskText.defaultRisk] := by
  obtain ⟨la, hla⟩ := Option.isSome_iff_exists.mp hlat
  obtain ⟨lo, hlo⟩ := Option.isSome_iff_exists.mp hlon
  simp only [evaluate, hla, hlo, Option.isNone_some, Bool.or_self, Bool.false_eq_true,
    if_false]
  rcases hfail with hnet | ⟨resp, hnet, hempty⟩
  · subst hnet
    rfl
  · subst hnet
    simp only [collectWindowClimateSeries, fetchNasaWindow, hempty, List.isEmpty_nil,
      if_true, Except.toOption]

/-- Witness for C7: a plot at (1, 2) with a failing climate fetch gets
the default advisory message. -/
theorem evaluate_degrades_to_default_witness :
    evaluate { ubicacion := some { latitud := PyVal.num 1, longitud := PyVal.num 2 } }
      { year := 2025, month := 10, day := 12 } none (Except.error ()) 2015 2024 =
      [RiskText.defaultRisk] :=
  evaluate_degrades_to_default
    { ubicacion := some { latitud := PyVal.num 1, longitud := PyVal.num 2 } }
    { year := 2025, month := 10, day := 12 } none (Except.error ()) 2015 2024
    rfl rfl (Or.inl rfl)

/-- Helper: characters with the same code point are equal. -/
theorem char_toNat_inj {a b : Char} (h : a.toNat = b.toNat) : a = b := by
  have hv : a.val = b.val := by
    apply UInt32.eq_of_toBitVec_eq
    apply BitVec.eq_of_toNat_eq
    simpa [Char.toNat, UInt32.toNat] using h
  exact Char.eq_of_val_eq hv

/-- Helper: character equality through code points. -/
theorem char_eq_iff_toNat (x y : Char) : x = y ↔ x.toNat = y.toNat :=
  ⟨fun h => congrArg Char.toNat h, char_toNat_inj⟩

/-- Helper: on four decimal digits, the `(19|20)\\d{2}` year pattern
holds exactly when the numeric value lies in the plausible century range
[1900, 2099]. -/
theorem matchesYearPattern_iff (a b c d : Char)
    (ha : isDigitChar a = true) (hb : isDigitChar b = true)
    (hc : isDigitChar c = true) (hd : isDigitChar d = true) :
    matchesYearPattern [a, b, c, d] = true ↔
      (1900 ≤ digitsToNat [a, b, c, d] ∧ digitsToNat [a, b, c, d] ≤ 2099) := by
  simp only [isDigitChar, Bool.and_eq_true, decide_eq_true_eq] at ha hb hc hd
  simp only [matchesYearPattern, digitsToNat, List.foldl, Bool.and_eq_true,
    Bool.or_eq_true, decide_eq_true_eq, isDigitChar]
  rw [char_eq_iff_toNat a '1', char_eq_iff_toNat b '9', char_eq_iff_toNat a '2',
    char_eq_iff_toNat b '0']
  have h1 : ('1' : Char).toNat = 49 := rfl
  have h9 : ('9' : Char).toNat = 57 := rfl
  have h2 : ('2' : Char).toNat = 50 := rfl
  have h0 : ('0' : Char).toNat = 48 := rfl
  rw [h1, h9, h2, h0]
  omega

/-- Helper: a successful campaign-pattern match yields a second group of
exactly four decimal digits. -/
theorem matchCampaignPattern_digits (s : String) (y1 y2 : List Char)
    (h : matchCampaignPattern s = some (y1, y2)) :
    ∃ a b c d, y2 = [a, b, c, d] ∧ isDigitChar a = true ∧ isDigitChar b = true ∧
      isDigitChar c = true ∧ isDigitChar d = true := by
  unfold matchCampaignPattern at h
  split at h
  next a b c d sl e f g hh heq =>
    by_cases hcond : (sl = '/' && [a, b, c, d, e, f, g, hh].all isDigitChar) = true
    · rw [if_pos hcond] at h
      simp only [Option.some.injEq, Prod.mk.injEq] at h
      obtain ⟨h1, h2⟩ := h
      simp only [Bool.and_eq_true, List.all_cons, List.all_nil, Bool.and_true,
        decide_eq_true_eq] at hcond
      exact ⟨e, f, g, hh, h2.symm, hcond.2.2.2.2.2.1, hcond.2.2.2.2.2.2.1,
        hcond.2.2.2.2.2.2.2.1, hcond.2.2.2.2.2.2.2.2⟩
    · rw [if_neg hcond] at h
      cases h
  next => cases h



/-- Claim C9 counterexample: the input with a leading space does not
match the exact pattern `\\d{4}/\\d{4}`, yet `parse_target_year` strips it
first and still returns 2025 instead of raising. -/
theorem parse_target_year_counterexample :
    matchesExactCampaignPattern " 2024/2025" = false ∧
    parseTargetYear " 2024/2025" = Except.ok 2025 := by
  exact ⟨by decide, rfl⟩

/-- Claim C9 (amended): `parse_target_year` returns the second year as
an integer exactly for the inputs that, after stripping surrounding
whitespace, match the pattern `\\d{4}/\\d{4}` with the second year in the
plausible range [1900, 2099]; non-consecutive pairs such as 2024/2026
only set the warning condition and still return 2026; empty,
whitespace-only, malformed, and out-of-range inputs raise the domain
error; 2024/2025 returns 2025. -/
theorem parse_target_year_spec :
    parseTargetYear "2024/2025" = Except.ok 2025 ∧
    (parseTargetYear "2024/2026" = Except.ok 2026 ∧ warnsNonConsecutive "2024/2026" = true) ∧
    parseTargetYear "" = Except.error CampaignError.emptyCampaign ∧
    parseTargetYear "abcd/efgh" = Except.error CampaignError.badFormat ∧
    (∀ s y, parseTargetYear s = Except.ok y ↔
      (matchesExactCampaignPattern (pyStrip s) = true ∧ y = secondYearOf (pyStrip s) ∧
       1900 ≤ y ∧ y ≤ 2099)) := by
  refine ⟨rfl, ⟨rfl, by decide⟩, rfl, rfl, ?_⟩
  intro s y
  unfold parseTargetYear matchesExactCampaignPattern secondYearOf
  by_cases hcl : pyStrip s = ""
  · simp [hcl, matchCampaignPattern]
  · simp only [hcl, if_false, Bool.false_eq_true]
    cases hm : matchCampaignPattern (pyStrip s) with
    | none => simp [hm]
    | some p =>
        obtain ⟨y1, y2⟩ := p
        obtain ⟨a, b, c, d, hy2, ha, hb, hc, hd⟩ :=
          matchCampaignPattern_digits (pyStrip s) y1 y2 hm
        subst hy2
        simp only [hm, Option.isSome_some, true_and]
        by_cases hyp : matchesYearPattern [a, b, c, d] = true
        · simp only [hyp, Bool.not_true, Bool.false_eq_true, if_false]
          obtain ⟨h1, h2⟩ := (matchesYearPattern_iff a b c d ha hb hc hd).mp hyp
          constructor
          · rintro h
            cases h
            exact ⟨rfl, h1, h2⟩
          · rintro ⟨rfl, _, _⟩
            rfl
        · simp only [Bool.not_eq_true] at hyp
          simp only [hyp, Bool.not_false, if_true]
          constructor
          · rintro h
            cases h
          · rintro ⟨rfl, hb1, hb2⟩
            have := (matchesYearPattern_iff a b c d ha hb hc hd).mpr ⟨hb1, hb2⟩
            rw [hyp] at this
            cases this

end AgroML
